import Mathlib

/-!
Shallow embedding of the Youtube Assistant application.

The embedding covers the two specified behaviours:
config resolution (src/config.py, class Config) and the
session orchestration path (src/app.py, run_agent and the
chat input handler).  The process environment is modelled as
an association list where the first binding of a key wins;
environment mutation is modelled by explicit state passing.
-/

set_option autoImplicit false

/-- Process environment: association list of variable bindings, first binding wins. -/
abbrev Env : Type := List (String × String)

/-- Reading a variable: os.environ.get(k) / os.getenv(k) with no default. -/
def envGet (env : Env) (k : String) : Option String :=
  (env.find? (fun p => p.1 == k)).map (fun p => p.2)

/-- Writing a variable: os.environ[k] = v (overwrites any previous binding). -/
def envSet (env : Env) (k v : String) : Env :=
  (k, v) :: env.filter (fun p => p.1 != k)

/-- os.getenv(k, d): the bound value when the variable is present (even empty), else d. -/
def getenv (env : Env) (k d : String) : String :=
  (envGet env k).getD d

/-- Python truthiness of os.environ.get(k): false for an unset variable and for "". -/
def envTruthy (env : Env) (k : String) : Bool :=
  match envGet env k with
  | none => false
  | some v => v != ""

/-- Config._has_required_env_vars: bool(environ.get("OPENAI_API_KEY") and environ.get("VECTOR_STORE_ID")). -/
def has_required_env_vars (env : Env) : Bool :=
  envTruthy env "OPENAI_API_KEY" && envTruthy env "VECTOR_STORE_ID"

/-- dotenv.load_dotenv(): merge the parsed .env bindings into the process
environment without overriding variables that are already present. -/
def loadDotenv (env : Env) (fileEnv : Env) : Env :=
  fileEnv.foldl (fun e p => if (envGet e p.1).isSome then e else envSet e p.1 p.2) env

/-- ASCII whitespace as recognised by Python str.strip(). -/
def isPySpace (c : Char) : Bool :=
  c == ' ' || c == '\t' || c == '\n' || c == '\x0d' || c == '\x0b' || c == '\x0c'

/-- Python str.strip(): remove leading and trailing whitespace. -/
def pyStrip (s : String) : String :=
  String.mk (((s.toList.dropWhile isPySpace).reverse.dropWhile isPySpace).reverse)

/-- Python str.lower() on the ASCII range. -/
def pyLower (s : String) : String :=
  String.mk (s.toList.map Char.toLower)

/-- Digit run of a Python base-10 int literal after its first digit: ASCII digits
with single underscores allowed between digits. -/
def pyDigits : List Char → Nat → Option Nat
  | [], acc => some acc
  | '_' :: c :: cs, acc =>
      if c.isDigit then pyDigits cs (acc * 10 + (c.toNat - 48)) else none
  | '_' :: [], _acc => none
  | c :: cs, acc =>
      if c.isDigit then pyDigits cs (acc * 10 + (c.toNat - 48)) else none

/-- Unsigned part of a Python base-10 int literal: at least one digit. -/
def pyIntDigits : List Char → Option Nat
  | [] => none
  | c :: cs => if c.isDigit then pyDigits cs (c.toNat - 48) else none

/-- Python int(s) for base 10: strip surrounding whitespace, optional sign,
then a non-empty digit run; None models the ValueError raised otherwise. -/
def pythonInt (s : String) : Option Int :=
  match (pyStrip s).toList with
  | '+' :: cs => (pyIntDigits cs).map (fun n => (n : Int))
  | '-' :: cs => (pyIntDigits cs).map (fun n => -(n : Int))
  | cs => (pyIntDigits cs).map (fun n => (n : Int))

/-- s.lower() == "true" as used for the boolean settings. -/
def pyBoolFlag (s : String) : Bool :=
  pyLower s == "true"

/-- The configuration dictionary built by Config: all three producers
(_load_from_env, _load_from_json, _get_defaults) populate exactly these keys,
and the property accessors read exactly these keys. -/
structure ConfigData where
  OPENAI_API_KEY : String
  VECTOR_STORE_ID : String
  MCP_URL : String
  APP_TITLE : String
  APP_ICON : String
  MAX_RESULTS_DEFAULT : Int
  ENABLE_WEB_SEARCH_DEFAULT : Bool
  ENABLE_DOCUMENT_SEARCH_DEFAULT : Bool
  ENABLE_MCP_SEARCH_DEFAULT : Bool
  AGENT_NAME : String
  AGENT_INSTRUCTIONS : String
  AGENT_MODEL : String
deriving DecidableEq

/-- Default agent instructions string used by _load_from_env and _get_defaults. -/
def defaultEnvAgentInstructions : String :=
  "You are a research assistant who uses web search and document search to respond to questions."

/-- Config._get_defaults. -/
def getDefaults : ConfigData :=
  { OPENAI_API_KEY := ""
    VECTOR_STORE_ID := ""
    MCP_URL := ""
    APP_TITLE := "Youtube Assistant"
    APP_ICON := "🎥"
    MAX_RESULTS_DEFAULT := 3
    ENABLE_WEB_SEARCH_DEFAULT := true
    ENABLE_DOCUMENT_SEARCH_DEFAULT := false
    ENABLE_MCP_SEARCH_DEFAULT := false
    AGENT_NAME := "Youtube Assistant"
    AGENT_INSTRUCTIONS := defaultEnvAgentInstructions
    AGENT_MODEL := "gpt-4o-mini" }

/-- Config._load_from_env.  int(os.getenv("MAX_RESULTS_DEFAULT", "3")) raises
ValueError on a malformed literal, modelled as Except.error. -/
def loadFromEnv (env : Env) : Except String ConfigData :=
  match pythonInt (getenv env "MAX_RESULTS_DEFAULT" "3") with
  | none =>
      Except.error ("invalid literal for int() with base 10: " ++
        getenv env "MAX_RESULTS_DEFAULT" "3")
  | some n =>
      Except.ok
        { OPENAI_API_KEY := getenv env "OPENAI_API_KEY" ""
          VECTOR_STORE_ID := getenv env "VECTOR_STORE_ID" ""
          MCP_URL := getenv env "MCP_URL" ""
          APP_TITLE := getenv env "APP_TITLE" "Youtube Assistant"
          APP_ICON := getenv env "APP_ICON" "🎥"
          MAX_RESULTS_DEFAULT := n
          ENABLE_WEB_SEARCH_DEFAULT := pyBoolFlag (getenv env "ENABLE_WEB_SEARCH_DEFAULT" "true")
          ENABLE_DOCUMENT_SEARCH_DEFAULT := pyBoolFlag (getenv env "ENABLE_DOCUMENT_SEARCH_DEFAULT" "false")
          ENABLE_MCP_SEARCH_DEFAULT := pyBoolFlag (getenv env "ENABLE_MCP_SEARCH_DEFAULT" "false")
          AGENT_NAME := getenv env "AGENT_NAME" "Youtube Assistant"
          AGENT_INSTRUCTIONS := getenv env "AGENT_INSTRUCTIONS" defaultEnvAgentInstructions
          AGENT_MODEL := getenv env "AGENT_MODEL" "gpt-4o-mini" }

/-- Key/value overrides carried by a successfully parsed external config.json;
dict.update replaces exactly the keys present in the file. -/
structure JsonOverrides where
  OPENAI_API_KEY : Option String := none
  VECTOR_STORE_ID : Option String := none
  MCP_URL : Option String := none
  APP_TITLE : Option String := none
  APP_ICON : Option String := none
  MAX_RESULTS_DEFAULT : Option Int := none
  ENABLE_WEB_SEARCH_DEFAULT : Option Bool := none
  ENABLE_DOCUMENT_SEARCH_DEFAULT : Option Bool := none
  ENABLE_MCP_SEARCH_DEFAULT : Option Bool := none
  AGENT_NAME : Option String := none
  AGENT_INSTRUCTIONS : Option String := none
  AGENT_MODEL : Option String := none
deriving DecidableEq

/-- defaults.update(config) in Config._load_from_json. -/
def applyOverrides (base : ConfigData) (o : JsonOverrides) : ConfigData :=
  { OPENAI_API_KEY := o.OPENAI_API_KEY.getD base.OPENAI_API_KEY
    VECTOR_STORE_ID := o.VECTOR_STORE_ID.getD base.VECTOR_STORE_ID
    MCP_URL := o.MCP_URL.getD base.MCP_URL
    APP_TITLE := o.APP_TITLE.getD base.APP_TITLE
    APP_ICON := o.APP_ICON.getD base.APP_ICON
    MAX_RESULTS_DEFAULT := o.MAX_RESULTS_DEFAULT.getD base.MAX_RESULTS_DEFAULT
    ENABLE_WEB_SEARCH_DEFAULT := o.ENABLE_WEB_SEARCH_DEFAULT.getD base.ENABLE_WEB_SEARCH_DEFAULT
    ENABLE_DOCUMENT_SEARCH_DEFAULT := o.ENABLE_DOCUMENT_SEARCH_DEFAULT.getD base.ENABLE_DOCUMENT_SEARCH_DEFAULT
    ENABLE_MCP_SEARCH_DEFAULT := o.ENABLE_MCP_SEARCH_DEFAULT.getD base.ENABLE_MCP_SEARCH_DEFAULT
    AGENT_NAME := o.AGENT_NAME.getD base.AGENT_NAME
    AGENT_INSTRUCTIONS := o.AGENT_INSTRUCTIONS.getD base.AGENT_INSTRUCTIONS
    AGENT_MODEL := o.AGENT_MODEL.getD base.AGENT_MODEL }

/-- State of the external config file at home/.config/youtube-assistant/config.json:
absent, present but not parseable as JSON (any exception inside _load_from_json),
or present with parsed contents. -/
inductive JsonState where
  | absent
  | malformed
  | parsed (o : JsonOverrides)
deriving DecidableEq

/-- The ambient state Config._load_configuration can observe: process
environment, external config file, and optional local .env file. -/
structure World where
  env : Env
  externalJson : JsonState
  dotenv : Option Env
deriving DecidableEq

/-- Config._load_configuration.  Returns the possibly updated process
environment (load_dotenv mutates it in step 3) together with the loaded
configuration, or the propagated int() error. -/
def loadConfiguration (w : World) : Env × Except String ConfigData :=
  if has_required_env_vars w.env then
    (w.env, loadFromEnv w.env)
  else
    match w.externalJson with
    | JsonState.parsed o => (w.env, Except.ok (applyOverrides getDefaults o))
    | JsonState.malformed => (w.env, Except.ok getDefaults)
    | JsonState.absent =>
      match w.dotenv with
      | some f => (loadDotenv w.env f, loadFromEnv (loadDotenv w.env f))
      | none => (w.env, Except.ok getDefaults)

/-- Tools attachable to an agent invocation (agents SDK). -/
inductive Tool where
  | webSearch
  | fileSearch (max_num_results : Int) (vector_store_ids : List String)
deriving DecidableEq

/-- The Agent(...) value constructed by run_agent. -/
structure AgentSpec where
  name : String
  instructions : String
  tools : List Tool
  model : String
deriving DecidableEq

/-- SearchMetadata attached to an assistant turn. -/
structure Metadata where
  sources_enabled : List String
  web_search : Bool
  document_search : Bool
  max_doc_results : Option Int
deriving DecidableEq

/-- The dictionary returned by a successful run_agent call. -/
structure RunResult where
  response : String
  metadata : Metadata
deriving DecidableEq

/-- Fallback instruction string in load_agent_instructions. -/
def fallbackInstructions : String :=
  "You are a research assistant who helps users find information using available search tools. Always cite your sources."

/-- load_agent_instructions: contents of agent_instructions.txt stripped,
or the fallback when the file is absent. -/
def load_agent_instructions (file : Option String) : String :=
  match file with
  | some s => pyStrip s
  | none => fallbackInstructions

/-- Directive appended in document-only mode. -/
def docOnlyDirective : String :=
  "\n\nCURRENT SESSION MODE: DOCUMENT-ONLY SEARCH. You can ONLY use information from the uploaded documents via vector search. Do NOT use any general knowledge, training data, or external information. If the answer is not in the documents, clearly state \x27I don\x27t have information about [topic] in the uploaded documents.\x27"

/-- Directive appended in web-only mode. -/
def webOnlyDirective : String :=
  "\n\nCURRENT SESSION MODE: WEB-ONLY SEARCH. You can only use information from web search results."

/-- Directive appended when both sources are enabled. -/
def hybridDirective : String :=
  "\n\nCURRENT SESSION MODE: HYBRID SEARCH. You have access to both document search and web search. Use both sources appropriately."

/-- Instruction assembly in run_agent: base instructions, the 3-way
mode-directive case on (enable_web, enable_docs), then the active-sources
footer joining the accumulated source labels with " and ". -/
def buildInstructions (file : Option String) (enable_web enable_docs : Bool)
    (sources_used : List String) : String :=
  let instructions := load_agent_instructions file
  let instructions :=
    if enable_docs ∧ ¬ enable_web then instructions ++ docOnlyDirective
    else if enable_web ∧ ¬ enable_docs then instructions ++ webOnlyDirective
    else if enable_web ∧ enable_docs then instructions ++ hybridDirective
    else instructions
  instructions ++ "\n\nCURRENT ACTIVE SOURCES: " ++ String.intercalate " and " sources_used

/-- run_agent.  The first component is the process environment after the
unconditional os.environ["OPENAI_API_KEY"] = api_key write; the second is the
result or the raised ValueError message.  The external Runner.run call is
modelled by the runner oracle. -/
def run_agent (cfg : ConfigData) (file : Option String)
    (runner : AgentSpec → String → String) (env : Env)
    (query api_key vs_id : String) (enable_web enable_docs : Bool)
    (max_doc_results : Int) : Env × Except String RunResult :=
  (envSet env "OPENAI_API_KEY" api_key,
   let tools0 : List Tool := if enable_web then [Tool.webSearch] else []
   let sources0 : List String := if enable_web then ["web search"] else []
   if enable_docs ∧ vs_id = "" then
     Except.error "Document search enabled but Vector Store ID is missing"
   else
     let tools1 := if enable_docs then tools0 ++ [Tool.fileSearch max_doc_results [vs_id]] else tools0
     let sources1 := if enable_docs then sources0 ++ ["vector data store search"] else sources0
     if tools1 = [] then
       Except.error "At least one search source must be enabled"
     else
       Except.ok
         { response := runner
             { name := cfg.AGENT_NAME
               instructions := buildInstructions file enable_web enable_docs sources1
               tools := tools1
               model := cfg.AGENT_MODEL } query
           metadata :=
             { sources_enabled := sources1
               web_search := enable_web
               document_search := enable_docs
               max_doc_results := if enable_docs then some max_doc_results else none } })

/-- Metadata of a dispatch outcome, when it succeeded. -/
def resultMetadata : Except String RunResult → Option Metadata
  | Except.ok r => some r.metadata
  | Except.error _ => none

/-- Error message of a dispatch outcome, when it failed. -/
def dispatchError : Except String RunResult → Option String
  | Except.ok _ => none
  | Except.error e => some e

/-- Modelled from the spec: the dispatch preconditions checked in the order the
spec states them, NoSourceEnabled first, then MissingVectorStore, used to
compare against the error behaviour of run_agent. -/
def specDispatchCheck (vs_id : String) (enable_web enable_docs : Bool) : Option String :=
  if ¬ enable_web ∧ ¬ enable_docs then
    some "At least one search source must be enabled"
  else if enable_docs ∧ vs_id = "" then
    some "Document search enabled but Vector Store ID is missing"
  else
    none

/-- Outcome of one chat submission in the UI handler. -/
inductive HandlerOutcome where
  | errorBanner (msg : String)
  | assistantReply (response : String) (md : Metadata)
  | assistantError (msg : String)
deriving DecidableEq

/-- The chat input handler in src/app.py: pre-dispatch checks, then run_agent
with the configured credentials; an exception becomes an assistant message
prefixed with "Error: ". -/
def chatInputHandler (cfg : ConfigData) (file : Option String)
    (runner : AgentSpec → String → String) (env : Env) (prompt : String)
    (use_web_search use_document_search : Bool) (max_results : Int) :
    Env × HandlerOutcome :=
  if cfg.OPENAI_API_KEY = "" then
    (env, HandlerOutcome.errorBanner "Please add your OpenAI API Key to the .env file.")
  else if cfg.VECTOR_STORE_ID = "" ∧ use_document_search then
    (env, HandlerOutcome.errorBanner "Please add your Vector Store ID to the .env file or disable Document Search.")
  else if ¬ use_web_search ∧ ¬ use_document_search then
    (env, HandlerOutcome.errorBanner "Please enable at least one search source in the sidebar.")
  else
    match run_agent cfg file runner env prompt cfg.OPENAI_API_KEY cfg.VECTOR_STORE_ID
        use_web_search use_document_search max_results with
    | (env2, Except.ok r) => (env2, HandlerOutcome.assistantReply r.response r.metadata)
    | (env2, Except.error e) => (env2, HandlerOutcome.assistantError ("Error: " ++ e))

deriving instance DecidableEq for Except

/-- Fixed runner oracle used for concrete instantiations. -/
def runner0 : AgentSpec → String → String :=
  fun _ _ => "ok"

/-- Concrete environment holding both required variables. -/
def env1 : Env :=
  [("OPENAI_API_KEY", "sk-test"), ("VECTOR_STORE_ID", "vs-test")]

/-- C1: when both required environment variables are non-empty, resolution
returns the environment-sourced settings, independent of the external JSON
config file and the local .env file, with per-key defaults for unset optional
keys (APP_TITLE shown representative). -/
theorem config_env_priority (env : Env) (j : JsonState) (d : Option Env)
    (h : has_required_env_vars env = true) :
    loadConfiguration ⟨env, j, d⟩ = (env, loadFromEnv env) ∧
    (∀ j2 : JsonState, ∀ d2 : Option Env,
      loadConfiguration ⟨env, j2, d2⟩ = loadConfiguration ⟨env, j, d⟩) ∧
    (envGet env "APP_TITLE" = none →
      ∀ c : ConfigData, loadFromEnv env = Except.ok c →
        c.APP_TITLE = "Youtube Assistant") := by
  refine ⟨by simp [loadConfiguration, h], fun j2 d2 => by simp [loadConfiguration, h], ?_⟩
  intro ht c hc
  unfold loadFromEnv at hc
  cases hpi : pythonInt (getenv env "MAX_RESULTS_DEFAULT" "3") with
  | none => rw [hpi] at hc; cases hc
  | some n =>
    rw [hpi] at hc
    cases hc
    simp [getenv, ht]

/-- C1 witness: a concrete environment with both keys set, in the presence of
a malformed external config file and a .env file. -/
theorem config_env_priority_witness :
    has_required_env_vars env1 = true ∧
    loadConfiguration ⟨env1, JsonState.malformed, some [("OPENAI_API_KEY", "other")]⟩ =
      (env1, loadFromEnv env1) :=
  ⟨by decide,
   (config_env_priority env1 JsonState.malformed (some [("OPENAI_API_KEY", "other")])
     (by decide)).1⟩

/-- C4: when the required-keys test fails, no external JSON file exists and a
local .env file exists, resolution loads the .env bindings into the process
environment and returns the environment-derived settings unconditionally; the
returned credential fields are just the (possibly empty) merged-environment
values, with no re-check of the required keys. -/
theorem config_dotenv_fallback (env f : Env) (h : has_required_env_vars env = false) :
    loadConfiguration ⟨env, JsonState.absent, some f⟩ =
      (loadDotenv env f, loadFromEnv (loadDotenv env f)) ∧
    (∀ c : ConfigData, loadFromEnv (loadDotenv env f) = Except.ok c →
      c.OPENAI_API_KEY = getenv (loadDotenv env f) "OPENAI_API_KEY" "" ∧
      c.VECTOR_STORE_ID = getenv (loadDotenv env f) "VECTOR_STORE_ID" "") := by
  refine ⟨by simp [loadConfiguration, h], ?_⟩
  intro c hc
  unfold loadFromEnv at hc
  cases hpi : pythonInt (getenv (loadDotenv env f) "MAX_RESULTS_DEFAULT" "3") with
  | none => rw [hpi] at hc; cases hc
  | some n =>
    rw [hpi] at hc
    cases hc
    exact ⟨rfl, rfl⟩

/-- C4 witness: empty environment and empty .env file; the fallback still
returns settings, whose credential fields are empty. -/
theorem config_dotenv_fallback_witness :
    has_required_env_vars [] = false ∧
    loadConfiguration ⟨[], JsonState.absent, some []⟩ =
      (loadDotenv [] [], loadFromEnv (loadDotenv [] [])) ∧
    loadFromEnv (loadDotenv [] []) = Except.ok getDefaults ∧
    getDefaults.OPENAI_API_KEY = "" ∧ getDefaults.VECTOR_STORE_ID = "" :=
  ⟨by decide, (config_dotenv_fallback [] [] (by decide)).1, by decide, rfl, rfl⟩

/-- C5: a malformed external JSON config file never raises: resolution returns
the hard-coded defaults, and does not fall through to the .env step (the result
and the environment are the same whatever the .env state is). -/
theorem config_malformed_json_defaults (env : Env) (d : Option Env)
    (h : has_required_env_vars env = false) :
    loadConfiguration ⟨env, JsonState.malformed, d⟩ = (env, Except.ok getDefaults) ∧
    (∀ d2 : Option Env,
      loadConfiguration ⟨env, JsonState.malformed, d2⟩ = (env, Except.ok getDefaults)) :=
  ⟨by simp [loadConfiguration, h], fun d2 => by simp [loadConfiguration, h]⟩

/-- C5 witness: malformed external config with a .env file present that would
have set a key; defaults are returned nevertheless. -/
theorem config_malformed_json_defaults_witness :
    has_required_env_vars [] = false ∧
    loadConfiguration ⟨[], JsonState.malformed, some [("OPENAI_API_KEY", "x")]⟩ =
      ([], Except.ok getDefaults) :=
  ⟨by decide, (config_malformed_json_defaults [] (some [("OPENAI_API_KEY", "x")]) (by decide)).1⟩

/-- C8: with the required-keys test failing, no external JSON file and no .env
file, resolution returns exactly the documented defaults. -/
theorem config_defaults_when_no_source (env : Env)
    (h : has_required_env_vars env = false) :
    loadConfiguration ⟨env, JsonState.absent, none⟩ = (env, Except.ok getDefaults) ∧
    getDefaults.OPENAI_API_KEY = "" ∧ getDefaults.VECTOR_STORE_ID = "" ∧
    getDefaults.APP_TITLE = "Youtube Assistant" ∧ getDefaults.APP_ICON = "🎥" ∧
    getDefaults.MAX_RESULTS_DEFAULT = 3 ∧
    getDefaults.ENABLE_WEB_SEARCH_DEFAULT = true ∧
    getDefaults.ENABLE_DOCUMENT_SEARCH_DEFAULT = false :=
  ⟨by simp [loadConfiguration, h], rfl, rfl, rfl, rfl, rfl, rfl, rfl⟩

/-- C8 witness: an environment holding only an optional key fails the required
test and, with no files, resolves to the defaults. -/
theorem config_defaults_when_no_source_witness :
    has_required_env_vars [("APP_TITLE", "T")] = false ∧
    loadConfiguration ⟨[("APP_TITLE", "T")], JsonState.absent, none⟩ =
      ([("APP_TITLE", "T")], Except.ok getDefaults) :=
  ⟨by decide, (config_defaults_when_no_source [("APP_TITLE", "T")] (by decide)).1⟩

/-- C2: with both sources disabled, dispatch fails with the NoSourceEnabled
validation error for every settings value; the outcome does not depend on the
agent runner (no agent call), and the chat handler shows an error banner, so
no assistant response is produced. -/
theorem dispatch_no_source_error (cfg : ConfigData) (file : Option String)
    (runner : AgentSpec → String → String) (env : Env) (q key vs : String) (mx : Int) :
    (run_agent cfg file runner env q key vs false false mx).2 =
      Except.error "At least one search source must be enabled" ∧
    (∀ runner2 : AgentSpec → String → String,
      run_agent cfg file runner env q key vs false false mx =
        run_agent cfg file runner2 env q key vs false false mx) ∧
    chatInputHandler cfg file runner env q false false mx =
      (env, HandlerOutcome.errorBanner
        (if cfg.OPENAI_API_KEY = "" then "Please add your OpenAI API Key to the .env file."
         else "Please enable at least one search source in the sidebar.")) := by
  refine ⟨?_, ?_, ?_⟩
  · simp [run_agent]
  · intro runner2; simp [run_agent]
  · by_cases hk : cfg.OPENAI_API_KEY = "" <;> simp [chatInputHandler, hk]

/-- C2 witness: concrete no-source dispatch fails with NoSourceEnabled. -/
theorem dispatch_no_source_error_witness :
    (run_agent getDefaults none runner0 env1 "q" "k" "v" false false 3).2 =
      Except.error "At least one search source must be enabled" :=
  (dispatch_no_source_error getDefaults none runner0 env1 "q" "k" "v" 3).1

/-- C3: with document search enabled and an empty vector-store id, dispatch
fails with MissingVectorStore (also when web search is enabled); the error
behaviour of run_agent coincides with the spec-ordered precondition check
(NoSourceEnabled before MissingVectorStore), and the two failures are
distinct. -/
theorem dispatch_missing_vector_store (cfg : ConfigData) (file : Option String)
    (runner : AgentSpec → String → String) (env : Env) (q key vs : String)
    (web docs : Bool) (mx : Int) :
    (run_agent cfg file runner env q key "" web true mx).2 =
      Except.error "Document search enabled but Vector Store ID is missing" ∧
    dispatchError (run_agent cfg file runner env q key vs web docs mx).2 =
      specDispatchCheck vs web docs ∧
    (run_agent cfg file runner env q key vs false false mx).2 ≠
      (run_agent cfg file runner env q key "" web true mx).2 := by
  refine ⟨?_, ?_, ?_⟩
  · simp [run_agent]
  · cases web <;> cases docs <;> by_cases hv : vs = "" <;>
      simp [run_agent, specDispatchCheck, dispatchError, hv]
  · simp [run_agent]

/-- C3 witness: MissingVectorStore with web search also enabled, and agreement
with the spec-ordered check at a concrete input. -/
theorem dispatch_missing_vector_store_witness :
    (run_agent getDefaults none runner0 [] "q" "k" "" true true 3).2 =
      Except.error "Document search enabled but Vector Store ID is missing" ∧
    dispatchError (run_agent getDefaults none runner0 [] "q" "k" "v" true true 3).2 =
      specDispatchCheck "v" true true :=
  ⟨(dispatch_missing_vector_store getDefaults none runner0 [] "q" "k" "v" true true 3).1,
   (dispatch_missing_vector_store getDefaults none runner0 [] "q" "k" "v" true true 3).2.1⟩

/-- C6: instruction text of every successful dispatch is the base instructions,
then the mode directive chosen by the 3-way case on (web_enabled,
document_enabled), then the active-sources footer joined with " and "; with
both sources enabled, sources_enabled is web first.  The web-only mode
succeeds and is characterised for every vector-store id, including the empty
one; the two docs-enabled modes succeed exactly for a non-empty id, which is
the only hypothesis on those conjuncts. -/
theorem dispatch_instruction_assembly (cfg : ConfigData) (file : Option String)
    (runner : AgentSpec → String → String) (env : Env) (q key vs : String) (mx : Int) :
    run_agent cfg file runner env q key vs true false mx =
      (envSet env "OPENAI_API_KEY" key,
       Except.ok
         { response := runner
             { name := cfg.AGENT_NAME
               instructions := load_agent_instructions file ++ webOnlyDirective ++
                 "\n\nCURRENT ACTIVE SOURCES: " ++ "web search"
               tools := [Tool.webSearch]
               model := cfg.AGENT_MODEL } q
           metadata := { sources_enabled := ["web search"], web_search := true,
                         document_search := false, max_doc_results := none } }) ∧
    (vs ≠ "" →
      run_agent cfg file runner env q key vs false true mx =
        (envSet env "OPENAI_API_KEY" key,
         Except.ok
           { response := runner
               { name := cfg.AGENT_NAME
                 instructions := load_agent_instructions file ++ docOnlyDirective ++
                   "\n\nCURRENT ACTIVE SOURCES: " ++ "vector data store search"
                 tools := [Tool.fileSearch mx [vs]]
                 model := cfg.AGENT_MODEL } q
             metadata := { sources_enabled := ["vector data store search"], web_search := false,
                           document_search := true, max_doc_results := some mx } })) ∧
    (vs ≠ "" →
      run_agent cfg file runner env q key vs true true mx =
        (envSet env "OPENAI_API_KEY" key,
         Except.ok
           { response := runner
               { name := cfg.AGENT_NAME
                 instructions := load_agent_instructions file ++ hybridDirective ++
                   "\n\nCURRENT ACTIVE SOURCES: " ++ "web search and vector data store search"
                 tools := [Tool.webSearch, Tool.fileSearch mx [vs]]
                 model := cfg.AGENT_MODEL } q
             metadata := { sources_enabled := ["web search", "vector data store search"],
                           web_search := true, document_search := true,
                           max_doc_results := some mx } })) ∧
    String.intercalate " and " ["web search", "vector data store search"] =
      "web search and vector data store search" := by
  refine ⟨?_, fun hvs => ?_, fun hvs => ?_, rfl⟩
  · simp [run_agent, buildInstructions, String.intercalate]
    rfl
  · simp [run_agent, buildInstructions, hvs, String.intercalate]
    rfl
  · simp [run_agent, buildInstructions, hvs, String.intercalate]
    rfl

/-- C6 witness: a web-only dispatch with an empty vector-store id (the
default-configuration path) and a hybrid dispatch, both at concrete inputs. -/
theorem dispatch_instruction_assembly_witness :
    run_agent getDefaults none runner0 [] "q" "k" "" true false 3 =
      (envSet [] "OPENAI_API_KEY" "k",
       Except.ok
         { response := runner0
             { name := getDefaults.AGENT_NAME
               instructions := load_agent_instructions none ++ webOnlyDirective ++
                 "\n\nCURRENT ACTIVE SOURCES: " ++ "web search"
               tools := [Tool.webSearch]
               model := getDefaults.AGENT_MODEL } "q"
           metadata := { sources_enabled := ["web search"], web_search := true,
                         document_search := false, max_doc_results := none } }) ∧
    ("vs-test" : String) ≠ "" ∧
    run_agent getDefaults none runner0 [] "q" "k" "vs-test" true true 3 =
      (envSet [] "OPENAI_API_KEY" "k",
       Except.ok
         { response := runner0
             { name := getDefaults.AGENT_NAME
               instructions := load_agent_instructions none ++ hybridDirective ++
                 "\n\nCURRENT ACTIVE SOURCES: " ++ "web search and vector data store search"
               tools := [Tool.webSearch, Tool.fileSearch 3 ["vs-test"]]
               model := getDefaults.AGENT_MODEL } "q"
           metadata := { sources_enabled := ["web search", "vector data store search"],
                         web_search := true, document_search := true,
                         max_doc_results := some 3 } }) :=
  ⟨(dispatch_instruction_assembly getDefaults none runner0 [] "q" "k" "" 3).1,
   by decide,
   (dispatch_instruction_assembly getDefaults none runner0 [] "q" "k" "vs-test" 3).2.2.1
     (by decide)⟩

/-- C7: for every successful dispatch, metadata.max_doc_results is the
configured maximum exactly when document search is enabled and null otherwise;
a web-only dispatch produces exactly the stated metadata. -/
theorem dispatch_metadata_max_doc_results (cfg : ConfigData) (file : Option String)
    (runner : AgentSpec → String → String) (env : Env) (q key vs : String)
    (web docs : Bool) (mx : Int) :
    (∀ m : Metadata,
      resultMetadata (run_agent cfg file runner env q key vs web docs mx).2 = some m →
      m.max_doc_results = if docs then some mx else none) ∧
    resultMetadata (run_agent cfg file runner env q key vs true false mx).2 =
      some { sources_enabled := ["web search"], web_search := true,
             document_search := false, max_doc_results := none } := by
  constructor
  · intro m hm
    cases web <;> cases docs <;> by_cases hv : vs = "" <;>
      simp [run_agent, resultMetadata, hv] at hm <;> simp [← hm]
  · simp [run_agent, resultMetadata]

/-- C7 witness: document-only dispatch with maximum 5, and the exact web-only
metadata at a concrete input. -/
theorem dispatch_metadata_max_doc_results_witness :
    ({ sources_enabled := ["vector data store search"], web_search := false,
       document_search := true, max_doc_results := some 5 } : Metadata).max_doc_results =
      (if (true : Bool) then some (5 : Int) else none) ∧
    resultMetadata (run_agent getDefaults none runner0 [] "q" "k" "v" true false 5).2 =
      some { sources_enabled := ["web search"], web_search := true,
             document_search := false, max_doc_results := none } :=
  ⟨(dispatch_metadata_max_doc_results getDefaults none runner0 [] "q" "k" "v" false true 5).1
     _ (by decide),
   (dispatch_metadata_max_doc_results getDefaults none runner0 [] "q" "k" "v" false true 5).2⟩

/-- C9: every dispatch, before any validation, overwrites the OPENAI_API_KEY
process environment variable with the supplied api key; whenever the variable
did not already hold that value, the dispatch mutates the process
environment. -/
theorem dispatch_sets_api_key_env (cfg : ConfigData) (file : Option String)
    (runner : AgentSpec → String → String) (env : Env) (q key vs : String)
    (web docs : Bool) (mx : Int) :
    (run_agent cfg file runner env q key vs web docs mx).1 =
      envSet env "OPENAI_API_KEY" key ∧
    envGet (run_agent cfg file runner env q key vs web docs mx).1 "OPENAI_API_KEY" =
      some key ∧
    (envGet env "OPENAI_API_KEY" ≠ some key →
      (run_agent cfg file runner env q key vs web docs mx).1 ≠ env) := by
  refine ⟨rfl, by simp [run_agent, envGet, envSet], ?_⟩
  intro hne he
  have h2 : envGet (run_agent cfg file runner env q key vs web docs mx).1 "OPENAI_API_KEY" =
      some key := by simp [run_agent, envGet, envSet]
  rw [he] at h2
  exact hne h2

/-- C9 witness: dispatch from an empty environment (even a failing one, here
with no source enabled) leaves OPENAI_API_KEY set, mutating the environment. -/
theorem dispatch_sets_api_key_env_witness :
    envGet ([] : Env) "OPENAI_API_KEY" ≠ some "k" ∧
    (run_agent getDefaults none runner0 [] "q" "k" "v" false false 3).1 ≠ ([] : Env) :=
  ⟨by decide,
   (dispatch_sets_api_key_env getDefaults none runner0 [] "q" "k" "v" false false 3).2.2
     (by decide)⟩

/-- C10: dispatch never consumes the AGENT_INSTRUCTIONS setting: changing only
that field leaves the whole dispatch output unchanged, and the base
instruction text comes from the agent_instructions.txt contents (stripped) or
the built-in fallback. -/
theorem dispatch_ignores_agent_instructions_setting (cfg : ConfigData) (s : String)
    (file : Option String) (runner : AgentSpec → String → String) (env : Env)
    (q key vs : String) (web docs : Bool) (mx : Int) :
    run_agent { cfg with AGENT_INSTRUCTIONS := s } file runner env q key vs web docs mx =
      run_agent cfg file runner env q key vs web docs mx ∧
    load_agent_instructions none = fallbackInstructions ∧
    (∀ t : String, load_agent_instructions (some t) = pyStrip t) :=
  ⟨rfl, rfl, fun _ => rfl⟩

/-- C10 witness: concrete dispatches with different AGENT_INSTRUCTIONS settings
coincide. -/
theorem dispatch_ignores_agent_instructions_setting_witness :
    run_agent { getDefaults with AGENT_INSTRUCTIONS := "other" } none runner0 []
        "q" "k" "v" true false 3 =
      run_agent getDefaults none runner0 [] "q" "k" "v" true false 3 :=
  (dispatch_ignores_agent_instructions_setting getDefaults "other" none runner0 []
    "q" "k" "v" true false 3).1
